import Mathlib

/-!
Verification of the ingredient-quantity normalization and nutrition-aggregation
engine of the Etsy-Automation repository (module `usda_nutrition.py`,
class `USDANutritionAnalyzer`).

The Python source is shallowly embedded: strings are processed as `List Char`,
the regular expressions of `parse_ingredient` are modelled by explicit
scanning functions with Python `re` semantics (leftmost match, alternative
order, word boundaries, greedy optional dot with backtracking, IGNORECASE),
numeric values are rationals, and the network collaborators
(`requests.get` inside `search_food` / `get_food_details`) are an explicit
environment of oracles returning either a failure or a response.
-/

namespace USDA

/-- ASCII lower-casing, modelling Python `str.lower()` / `re.IGNORECASE`
on the ASCII strings this module manipulates. -/
def lowerChar (c : Char) : Char :=
  if 'A' ≤ c ∧ c ≤ 'Z' then Char.ofNat (c.toNat + 32) else c

/-- Word characters of Python `re`'s `\b` (`[A-Za-z0-9_]`). -/
def isWordChar (c : Char) : Bool :=
  ('A' ≤ c && c ≤ 'Z') || ('a' ≤ c && c ≤ 'z') || ('0' ≤ c && c ≤ '9') || c = '_'

/-- Whitespace of Python `\s` and `str.strip()`. -/
def isSpaceChar (c : Char) : Bool :=
  c = ' ' || c = '\t' || c = '\n' || c = '\x0d' || c = '\x0b' || c = '\x0c'

/-- ASCII digit, Python `\d`. -/
def isDigitChar (c : Char) : Bool :=
  '0' ≤ c && c ≤ '9'

/-- Lower-case a whole string (Python `str.lower()`). -/
def lowerStr (s : String) : String :=
  ⟨s.data.map lowerChar⟩

/-- `seqStartsWith hay needle`: `needle` is a prefix of `hay` (exact chars). -/
def seqStartsWith : List Char → List Char → Bool
  | _, [] => true
  | [], _ :: _ => false
  | c :: cs, n :: ns => c == n && seqStartsWith cs ns

/-- `seqContains hay needle`: `needle` occurs contiguously in `hay`;
models Python `needle in hay` on strings. -/
def seqContains : List Char → List Char → Bool
  | [], n => n.isEmpty
  | c :: rest, n => seqStartsWith (c :: rest) n || seqContains rest n

/-- Substring test on strings (Python `in`). -/
def strContains (hay needle : String) : Bool :=
  seqContains hay.data needle.data

/-- Python `str.strip()`: drop whitespace from both ends. -/
def pyStrip (s : List Char) : List Char :=
  ((((s.dropWhile isSpaceChar).reverse).dropWhile isSpaceChar).reverse)

/-- One alternative of an alternation `\b(a₁|a₂|…)\b` in the source's
unit / modifier regexes: a literal word, optionally followed by `\.?`
(e.g. `c\.?`, `tbsp\.?`).  All cores are non-empty lower-case letter runs. -/
structure Alt where
  core : List Char
  optDot : Bool

/-- Match a literal (case-insensitively) at the head of `s`; return the rest. -/
def litMatch : List Char → List Char → Option (List Char)
  | [], s => some s
  | _ :: _, [] => none
  | p :: ps, c :: cs => if lowerChar c = lowerChar p then litMatch ps cs else none

/-- `\b` between a previous character of wordness `prevW` and the string `s`
(end of string counts as a non-word character). -/
def wordB (prevW : Bool) (s : List Char) : Bool :=
  prevW != (match s with | [] => false | c :: _ => isWordChar c)

/-- Try one alternative at the current position, including the trailing `\b`
and the greedy-with-backtracking `\.?`.  Returns the text after the match. -/
def tryAlt (a : Alt) (s : List Char) : Option (List Char) :=
  match litMatch a.core s with
  | none => none
  | some rest =>
    let lastW := isWordChar (a.core.getLastD 'x')
    if a.optDot then
      match rest with
      | '.' :: rest2 =>
        if wordB false rest2 then some rest2
        else if wordB lastW rest then some rest else none
      | _ => if wordB lastW rest then some rest else none
    else
      if wordB lastW rest then some rest else none

/-- Try the alternatives in declared order (Python alternation order). -/
def findAlt : List Alt → List Char → Option (List Char)
  | [], _ => none
  | a :: as', s =>
    match tryAlt a s with
    | some rest => some rest
    | none => findAlt as' s

/-- `re.search` for a pattern `\b(alts)\b`: scan left to right, at each
position check the leading `\b` then the alternatives; return the text
before the match and the text after it.  `pre` accumulates (reversed) the
scanned prefix, `prevW` is the wordness of the previous character. -/
def searchPat (alts : List Alt) : List Char → Bool → List Char →
    Option (List Char × List Char)
  | _, _, [] => none
  | pre, prevW, c :: rest =>
    if prevW != isWordChar c then
      match findAlt alts (c :: rest) with
      | some after => some (pre.reverse, after)
      | none => searchPat alts (c :: pre) (isWordChar c) rest
    else searchPat alts (c :: pre) (isWordChar c) rest

/-- `re.sub(pattern, '', s)` for a `\b(alts)\b` pattern, with fuel
(the fuel is initialised to the string length, which always suffices
since every match consumes at least one character). -/
def subAllF (alts : List Alt) : Nat → Bool → List Char → List Char
  | 0, _, s => s
  | _ + 1, _, [] => []
  | fuel + 1, prevW, c :: rest =>
    if prevW != isWordChar c then
      match findAlt alts (c :: rest) with
      | some after =>
        subAllF alts fuel (!(wordB false after)) after
      | none => c :: subAllF alts fuel (isWordChar c) rest
    else c :: subAllF alts fuel (isWordChar c) rest

/-- Remove every match of `\b(alts)\b` from `s` (Python `re.sub` with
empty replacement). After a removed match the scan resumes with the
wordness of the match's last character, recovered from the matched
trailing boundary. -/
def subAll (alts : List Alt) (s : List Char) : List Char :=
  subAllF alts s.length false s

/-- Drop through the first `')'` (the regex `\([^)]*\)` stops at the
first closing parenthesis). -/
def dropThroughClose : List Char → Option (List Char)
  | [] => none
  | ')' :: r => some r
  | _ :: r => dropThroughClose r

/-- `re.sub(r'\([^)]*\)', '', s)`: remove parenthesized asides. -/
def removeParensF : Nat → List Char → List Char
  | 0, s => s
  | _ + 1, [] => []
  | fuel + 1, c :: rest =>
    if c = '(' then
      match dropThroughClose rest with
      | some after => removeParensF fuel after
      | none => c :: removeParensF fuel rest
    else c :: removeParensF fuel rest

def removeParens (s : List Char) : List Char :=
  removeParensF s.length s

/-- The modifier alternation
`\b(fresh|dried|frozen|organic|large|small|medium|ripe|unripe)\b`. -/
def modifierAlts : List Alt :=
  [⟨("fresh").data, false⟩, ⟨("dried").data, false⟩, ⟨("frozen").data, false⟩,
   ⟨("organic").data, false⟩, ⟨("large").data, false⟩, ⟨("small").data, false⟩,
   ⟨("medium").data, false⟩, ⟨("ripe").data, false⟩, ⟨("unripe").data, false⟩]

/-- One anchored head pattern `^lit\s*` or `^lit\s+` (IGNORECASE):
`minSp` is 1 for `\s+`, 0 for `\s*`.  If the pattern does not match,
the string is unchanged (as with `re.sub`). -/
def dropHeadPat (lit : List Char) (minSp : Nat) (s : List Char) : List Char :=
  match litMatch lit s with
  | none => s
  | some rest =>
    if minSp ≤ (rest.takeWhile isSpaceChar).length then rest.dropWhile isSpaceChar
    else s

/-- The ordered `prefixes_to_remove` pipeline of the source (each `re.sub`
applied to the evolving string).  `^\.\s*` is the first entry. -/
def dropHeadPats (s : List Char) : List Char :=
  let s := dropHeadPat (".").data 0 s
  let s := dropHeadPat ("at least").data 1 s
  let s := dropHeadPat ("about").data 1 s
  let s := dropHeadPat ("approximately").data 1 s
  let s := dropHeadPat ("to taste").data 1 s
  let s := dropHeadPat ("for decoration").data 0 s
  let s := dropHeadPat ("chopped").data 1 s
  let s := dropHeadPat ("diced").data 1 s
  let s := dropHeadPat ("minced").data 1 s
  let s := dropHeadPat ("sliced").data 1 s
  let s := dropHeadPat ("grated").data 1 s
  s

/-- `re.sub(r'\.$', '', s)`: drop one trailing period. -/
def dropTrailPeriod (s : List Char) : List Char :=
  match s.reverse with
  | '.' :: r => r.reverse
  | _ => s

/-- `re.sub(r',\s*word$', '', s)` (IGNORECASE): strip a trailing
comma + spaces + word. -/
def dropCommaTail (word : List Char) (s : List Char) : List Char :=
  match litMatch word.reverse s.reverse with
  | none => s
  | some r1 =>
    match r1.dropWhile isSpaceChar with
    | ',' :: r2 => r2.reverse
    | _ => s

/-- `re.sub(r'\s+for decoration$', '', s)` (IGNORECASE). -/
def dropDecorTail (s : List Char) : List Char :=
  match litMatch ("for decoration").data.reverse s.reverse with
  | none => s
  | some r1 =>
    if (r1.takeWhile isSpaceChar).length ≥ 1 then (r1.dropWhile isSpaceChar).reverse
    else s

/-- The full cleanup pipeline of `parse_ingredient` before quantity
detection (source lines 154-200), in source order. -/
def preprocess (s : List Char) : List Char :=
  let s := removeParens s
  let s := subAll modifierAlts s
  let s := pyStrip s
  let s := dropHeadPats s
  let s := pyStrip s
  let s := dropTrailPeriod s
  let s := dropCommaTail ("chopped").data s
  let s := dropCommaTail ("diced").data s
  let s := dropCommaTail ("minced").data s
  let s := dropCommaTail ("sliced").data s
  let s := dropCommaTail ("grated").data s
  let s := dropDecorTail s
  pyStrip s

/-- `re.match(r'^(\d+/\d+)', s)`: a leading fraction, returning the matched
quantity text and the rest of the string. -/
def matchFraction (s : List Char) : Option (List Char × List Char) :=
  if s.takeWhile isDigitChar = [] then none
  else
    match s.drop (s.takeWhile isDigitChar).length with
    | '/' :: r =>
      if r.takeWhile isDigitChar = [] then none
      else some (s.takeWhile isDigitChar ++ '/' :: r.takeWhile isDigitChar,
                 r.drop (r.takeWhile isDigitChar).length)
    | _ => none

/-- `re.match(r'^(\d+(?:\.\d+)?)', s)`: a leading integer or decimal. -/
def matchNumber (s : List Char) : Option (List Char × List Char) :=
  if s.takeWhile isDigitChar = [] then none
  else
    match s.drop (s.takeWhile isDigitChar).length with
    | '.' :: r =>
      if r.takeWhile isDigitChar = [] then some (s.takeWhile isDigitChar, '.' :: r)
      else some (s.takeWhile isDigitChar ++ '.' :: r.takeWhile isDigitChar,
                 r.drop (r.takeWhile isDigitChar).length)
    | _ => some (s.takeWhile isDigitChar, s.drop (s.takeWhile isDigitChar).length)

/-- The source's `units` dict, in insertion order, as `(canonical name,
alternation)` pairs. -/
def unitTable : List (String × List Alt) :=
  [("cup", [⟨("c").data, true⟩, ⟨("cup").data, false⟩, ⟨("cups").data, false⟩]),
   ("tablespoon", [⟨("tbsp").data, true⟩, ⟨("tablespoon").data, false⟩,
                   ⟨("tablespoons").data, false⟩]),
   ("teaspoon", [⟨("tsp").data, true⟩, ⟨("teaspoon").data, false⟩,
                 ⟨("teaspoons").data, false⟩]),
   ("ounce", [⟨("oz").data, true⟩, ⟨("ounce").data, false⟩, ⟨("ounces").data, false⟩]),
   ("pound", [⟨("lb").data, true⟩, ⟨("pound").data, false⟩, ⟨("pounds").data, false⟩]),
   ("gram", [⟨("g").data, true⟩, ⟨("gram").data, false⟩, ⟨("grams").data, false⟩]),
   ("pint", [⟨("pint").data, false⟩, ⟨("pints").data, false⟩]),
   ("quart", [⟨("qt").data, true⟩, ⟨("quart").data, false⟩, ⟨("quarts").data, false⟩]),
   ("gallon", [⟨("gal").data, true⟩, ⟨("gallon").data, false⟩, ⟨("gallons").data, false⟩])]

/-- The unit-search loop of `parse_ingredient`: for each unit in table
order, `re.search` its pattern in `remaining`; on the first hit return
the canonical unit name and `remaining` with the matched span removed. -/
def findUnit : List (String × List Alt) → List Char → Option (String × List Char)
  | [], _ => none
  | (name, alts) :: us, remaining =>
    match searchPat alts [] false remaining with
    | some (before, after) => some (name, before ++ after)
    | none => findUnit us remaining

/-- The body of `parse_ingredient` over the character list of the input:
cleanup, then fraction / decimal quantity detection, then unit search
over the stripped remainder (`remaining := rest.strip()` in the source
appears here as `pyStrip rest`). -/
def parse_ingredient_chars (l : List Char) : String × String × String :=
  match matchFraction (preprocess l) with
  | some (q, rest) =>
    match findUnit unitTable (pyStrip rest) with
    | some (u, food) => (⟨q⟩, u, ⟨pyStrip food⟩)
    | none => (⟨q⟩, "", ⟨pyStrip (pyStrip rest)⟩)
  | none =>
    match matchNumber (preprocess l) with
    | some (q, rest) =>
      match findUnit unitTable (pyStrip rest) with
      | some (u, food) => (⟨q⟩, u, ⟨pyStrip food⟩)
      | none => (⟨q⟩, "", ⟨pyStrip (pyStrip rest)⟩)
    | none => ("1", "", ⟨preprocess l⟩)

/-- `parse_ingredient`: parse one ingredient line into
(quantity, unit, food name), exactly as `USDANutritionAnalyzer.parse_ingredient`. -/
def parse_ingredient (ingredient : String) : String × String × String :=
  parse_ingredient_chars ingredient.data

/-! ## Nutrient extraction (`extract_nutrients`) -/

/-- The closed set of nutrient keys of `nutrient_mapping` /
`total_nutrients`, in dict insertion order. -/
inductive NutrientKey where
  | calories | protein | fat | carbs | fiber | sugar
  | sodium | calcium | iron | vitamin_c | vitamin_a
deriving DecidableEq, Repr

/-- The eleven keys, in the insertion order of the source's dicts. -/
def allNutrientKeys : List NutrientKey :=
  [.calories, .protein, .fat, .carbs, .fiber, .sugar,
   .sodium, .calcium, .iron, .vitamin_c, .vitamin_a]

/-- The `nutrient_mapping` alias lists (legacy IDs and name fragments). -/
def searchTerms : NutrientKey → List String
  | .calories => ["208", "ENERC_KCAL", "calories", "energy"]
  | .protein => ["203", "PROCNT", "protein"]
  | .fat => ["204", "FAT", "total fat", "fat"]
  | .carbs => ["205", "CHOCDF", "carbohydrate", "carbs"]
  | .fiber => ["291", "FIBTG", "fiber", "dietary fiber"]
  | .sugar => ["269", "SUGAR", "sugar", "total sugars"]
  | .sodium => ["307", "NA", "sodium"]
  | .calcium => ["301", "CA", "calcium"]
  | .iron => ["303", "FE", "iron"]
  | .vitamin_c => ["401", "VITC", "vitamin c", "ascorbic acid"]
  | .vitamin_a => ["320", "VITA_RAE", "vitamin a"]

/-- One entry of a record's `foodNutrients` list, with the fields the
source reads (id and name after the old/new-structure fallback chain,
`value`/`amount`, `unitName`). -/
structure FoodNutrient where
  nutrientId : String
  nutrientName : String
  value : ℚ
  unitName : String

/-- A raw food-details record; `foodNutrients` is `none` when the key is
absent from the response dict. -/
structure FoodData where
  foodNutrients : Option (List FoodNutrient)

/-- The match test of the extraction loop: exact membership of the id in
the alias list, or any alias occurring as a substring of the lower-cased
nutrient name. -/
def matchesKey (k : NutrientKey) (n : FoodNutrient) : Bool :=
  (searchTerms k).contains n.nutrientId ||
    (searchTerms k).any (fun t => strContains (lowerStr n.nutrientName) t)

/-- Unit normalization of the extraction loop: mg→g for
sodium/calcium/iron, mcg→mg for vitamin A; all other values unchanged. -/
def normalizeVal (k : NutrientKey) (n : FoodNutrient) : ℚ :=
  if lowerStr n.unitName ∈ (["mg", "milligram"] : List String) ∧
      k ∈ ([.sodium, .calcium, .iron] : List NutrientKey) then
    n.value / 1000
  else if lowerStr n.unitName ∈ (["mcg", "microgram"] : List String) ∧
      k = NutrientKey.vitamin_a then
    n.value / 1000
  else n.value

/-- `extract_nutrients`: for every key in mapping order, the first
matching entry of `foodNutrients` (if any) contributes its normalized
value; a record without a `foodNutrients` field yields the empty mapping. -/
def extract_nutrients (fd : FoodData) : List (NutrientKey × ℚ) :=
  match fd.foodNutrients with
  | none => []
  | some ns =>
    allNutrientKeys.filterMap
      (fun k => (ns.find? (matchesKey k)).map (fun n => (k, normalizeVal k n)))

/-! ## Network collaborator model (`search_food`, `get_food_details`) -/

/-- One element of a search response's `foods` list, with the fields the
aggregator reads. -/
structure FoodMatch where
  fdcId : Int
  description : String

/-- A `/foods/search` HTTP response: status code and the optional
`foods` field of the JSON body (`data.get('foods', [])`). -/
structure SearchResponse where
  statusCode : Nat
  foods : Option (List FoodMatch)

/-- A `/food/{id}` HTTP response: status code and the JSON body. -/
structure DetailsResponse where
  statusCode : Nat
  body : FoodData

/-- The external nutrition service: each `requests.get` either raises
(`Except.error`, caught by the source's `try/except`) or returns a
response. -/
structure Env where
  httpSearch : String → Except String SearchResponse
  httpDetails : Int → Except String DetailsResponse

/-- `search_food`: a raised exception or a non-200 status yields `[]`;
otherwise the `foods` list of the body (defaulting to `[]`). -/
def search_food (env : Env) (query : String) : List FoodMatch :=
  match env.httpSearch query with
  | .error _ => []
  | .ok r => if r.statusCode = 200 then r.foods.getD [] else []

/-- `get_food_details`: a raised exception or a non-200 status yields
`none`; otherwise the body. -/
def get_food_details (env : Env) (fdcId : Int) : Option FoodData :=
  match env.httpDetails fdcId with
  | .error _ => none
  | .ok r => if r.statusCode = 200 then some r.body else none

/-! ## Quantity scaling and aggregation (`analyze_recipe_nutrition`) -/

/-- Decimal digit run to a natural number. -/
def digitsToNat (l : List Char) : ℕ :=
  l.foldl (fun a c => 10 * a + (c.toNat - 48)) 0

/-- The unsigned part of Python `float()` parsing: a decimal form `d+`,
`d+.d*` or `.d+` consuming the whole list, else `none`. -/
def pyFloatCore (l : List Char) : Option ℚ :=
  let d1 := l.takeWhile isDigitChar
  match l.drop d1.length with
  | [] => if d1 = [] then none else some (digitsToNat d1 : ℚ)
  | '.' :: r2 =>
    let d2 := r2.takeWhile isDigitChar
    if r2.drop d2.length ≠ [] then none
    else if d1 = [] ∧ d2 = [] then none
    else some ((digitsToNat d1 : ℚ) + (digitsToNat d2 : ℚ) / 10 ^ d2.length)
  | _ => none

/-- Model of Python `float()` on the quantity strings `parse_ingredient`
produces: an optional sign then a decimal form parses to a rational;
anything else (in particular a fraction "a/b", which makes `float` raise
`ValueError`) is `none`. -/
def pyFloat? (s : String) : Option ℚ :=
  match s.data with
  | '+' :: r => pyFloatCore r
  | '-' :: r => (pyFloatCore r).map Neg.neg
  | l => pyFloatCore l

/-- The grams-per-unit chain of `analyze_recipe_nutrition` (the
`qty_multiplier *= …` branches): cup 240, tablespoon 15, teaspoon 5,
ounce 28.35, pound 453.59, gram 1, anything else (including the empty
unit and pint/quart/gallon) the 50 g item-count heuristic. -/
def unitGrams (unit : String) : ℚ :=
  let ul := lowerStr unit
  if ul ∈ (["cup", "cups"] : List String) then 240
  else if ul ∈ (["tbsp", "tablespoon", "tablespoons"] : List String) then 15
  else if ul ∈ (["tsp", "teaspoon", "teaspoons"] : List String) then 5
  else if ul ∈ (["oz", "ounce", "ounces"] : List String) then 28.35
  else if ul ∈ (["lb", "pound", "pounds"] : List String) then 453.59
  else if ul ∈ (["g", "gram", "grams"] : List String) then 1
  else 50

/-- The quantity multiplier: `float(quantity) if quantity else 1.0`
followed by the unit multiplication, all inside the source's `try`; if
`float` raises (`pyFloat? = none`) the `except ValueError` branch sets
the multiplier to 1.0 and the unit multiplication is skipped. -/
def qtyMultiplier (quantity unit : String) : ℚ :=
  match (if quantity = "" then some 1 else pyFloat? quantity) with
  | some x => x * unitGrams unit
  | none => 1

/-- Scale a per-100g nutrient mapping by the quantity multiplier
(`scaled_value = value * qty_multiplier / 100`). -/
def scaleNutrients (ns : List (NutrientKey × ℚ)) (quantity unit : String) :
    List (NutrientKey × ℚ) :=
  ns.map (fun kv => (kv.1, kv.2 * qtyMultiplier quantity unit / 100))

/-- One entry of the result's ingredient breakdown. -/
structure IngredientResult where
  ingredient : String
  food_name : String
  quantity : String
  unit : String
  fdc_id : Int
  description : String
  nutrients : List (NutrientKey × ℚ)
deriving DecidableEq

/-- The per-ingredient body of the aggregation loop; `none` models the
`continue` taken when the food name is empty, the search returns no
results, the details fetch fails, or no nutrients are extracted. -/
def processIngredient (env : Env) (ing : String) : Option IngredientResult :=
  let (quantity, unit, food_name) := parse_ingredient ing
  if food_name = "" then none
  else
    match search_food env food_name with
    | [] => none
    | best :: _ =>
      match get_food_details env best.fdcId with
      | none => none
      | some fd =>
        let nutrients := extract_nutrients fd
        if nutrients = [] then none
        else
          some { ingredient := ing, food_name := food_name,
                 quantity := quantity, unit := unit,
                 fdc_id := best.fdcId, description := best.description,
                 nutrients := scaleNutrients nutrients quantity unit }

/-- Add a scaled nutrient mapping into the running totals
(`total_nutrients[nutrient] += scaled_value`). -/
def addNutrients (total : NutrientKey → ℚ) (ns : List (NutrientKey × ℚ)) :
    NutrientKey → ℚ :=
  ns.foldl (fun t kv => fun k => if k = kv.1 then t k + kv.2 else t k) total

/-- One iteration of the `for ingredient in ingredients` loop over the
accumulator state (running totals, breakdown so far). -/
def analyzeStep (env : Env) (st : (NutrientKey → ℚ) × List IngredientResult)
    (ing : String) : (NutrientKey → ℚ) × List IngredientResult :=
  match processIngredient env ing with
  | none => st
  | some r => (addNutrients st.1 r.nutrients, st.2 ++ [r])

/-- The aggregator's result value. -/
structure RecipeResult where
  total : NutrientKey → ℚ
  per_serving : NutrientKey → ℚ
  ingredients : List IngredientResult
  servings : ℤ

/-- The default of the `servings: int = 8` parameter. -/
def defaultServings : ℤ := 8

/-- `analyze_recipe_nutrition`: totals zero-initialized over the eleven
keys, the per-ingredient loop, then `per_serving[k] = total[k] / servings`. -/
def analyze_recipe_nutrition (env : Env) (ingredients : List String)
    (servings : ℤ) : RecipeResult :=
  let st := ingredients.foldl (analyzeStep env) ((fun _ => 0), [])
  { total := st.1
    per_serving := fun k => st.1 k / (servings : ℚ)
    ingredients := st.2
    servings := servings }

/-! ## Helper lemmas -/

/-- The value a nutrient mapping contributes to the running total at key
`k`: the sum of its entries recorded under `k`. -/
def entryTotal (ns : List (NutrientKey × ℚ)) (k : NutrientKey) : ℚ :=
  (ns.map (fun kv => if kv.1 = k then kv.2 else 0)).sum

lemma entryTotal_cons (kv : NutrientKey × ℚ) (ns : List (NutrientKey × ℚ))
    (k : NutrientKey) :
    entryTotal (kv :: ns) k = (if kv.1 = k then kv.2 else 0) + entryTotal ns k := by
  simp [entryTotal]

lemma addNutrients_apply (ns : List (NutrientKey × ℚ)) :
    ∀ (t : NutrientKey → ℚ) (k : NutrientKey),
      addNutrients t ns k = t k + entryTotal ns k := by
  induction ns with
  | nil => intro t k; simp [addNutrients, entryTotal]
  | cons kv ns ih =>
    intro t k
    show addNutrients (fun j => if j = kv.1 then t j + kv.2 else t j) ns k = _
    rw [ih, entryTotal_cons]
    show (if k = kv.1 then t k + kv.2 else t k) + entryTotal ns k = _
    by_cases h : k = kv.1
    · rw [if_pos h, if_pos h.symm]; ring
    · rw [if_neg h, if_neg (fun hh => h hh.symm)]; ring

lemma analyzeStep_none {env : Env} {ing : String}
    (h : processIngredient env ing = none)
    (st : (NutrientKey → ℚ) × List IngredientResult) :
    analyzeStep env st ing = st := by
  unfold analyzeStep; rw [h]

lemma analyzeStep_some {env : Env} {ing : String} {r : IngredientResult}
    (h : processIngredient env ing = some r)
    (st : (NutrientKey → ℚ) × List IngredientResult) :
    analyzeStep env st ing = (addNutrients st.1 r.nutrients, st.2 ++ [r]) := by
  unfold analyzeStep; rw [h]

/-- The aggregation loop in closed form: the breakdown collects exactly
the successfully processed ingredients in order, and each total is the
initial value plus the sum of the recorded contributions. -/
lemma foldl_analyzeStep (env : Env) (ings : List String) :
    ∀ (t0 : NutrientKey → ℚ) (r0 : List IngredientResult),
      (ings.foldl (analyzeStep env) (t0, r0)).2 =
        r0 ++ ings.filterMap (processIngredient env) ∧
      ∀ k, (ings.foldl (analyzeStep env) (t0, r0)).1 k =
        t0 k + ((ings.filterMap (processIngredient env)).map
          (fun r => entryTotal r.nutrients k)).sum := by
  induction ings with
  | nil => intro t0 r0; simp
  | cons ing ings ih =>
    intro t0 r0
    rw [List.foldl_cons]
    cases hp : processIngredient env ing with
    | none =>
      rw [analyzeStep_none hp, List.filterMap_cons_none hp]
      exact ih t0 r0
    | some r =>
      rw [analyzeStep_some hp, List.filterMap_cons_some hp]
      obtain ⟨h2, h1⟩ := ih (addNutrients t0 r.nutrients) (r0 ++ [r])
      refine ⟨by rw [h2]; simp, fun k => ?_⟩
      rw [h1 k, addNutrients_apply]
      simp [add_assoc]

lemma analyze_ingredients_eq (env : Env) (ings : List String) (s : ℤ) :
    (analyze_recipe_nutrition env ings s).ingredients =
      ings.filterMap (processIngredient env) := by
  unfold analyze_recipe_nutrition
  simpa using (foldl_analyzeStep env ings (fun _ => 0) []).1

lemma analyze_total_eq (env : Env) (ings : List String) (s : ℤ) (k : NutrientKey) :
    (analyze_recipe_nutrition env ings s).total k =
      ((ings.filterMap (processIngredient env)).map
        (fun r => entryTotal r.nutrients k)).sum := by
  unfold analyze_recipe_nutrition
  simpa using (foldl_analyzeStep env ings (fun _ => 0) []).2 k

lemma analyze_per_serving_eq (env : Env) (ings : List String) (s : ℤ) (k : NutrientKey) :
    (analyze_recipe_nutrition env ings s).per_serving k =
      (analyze_recipe_nutrition env ings s).total k / (s : ℚ) := by
  unfold analyze_recipe_nutrition
  simp

lemma takeWhile_app_all {p : Char → Bool} {xs : List Char}
    (hx : ∀ c ∈ xs, p c = true) {y : Char} (hy : p y = false) (ys : List Char) :
    (xs ++ y :: ys).takeWhile p = xs := by
  induction xs with
  | nil => simp [List.takeWhile_cons, hy]
  | cons a l ih =>
    rw [List.cons_append, List.takeWhile_cons, hx a (List.mem_cons_self a l)]
    rw [ih (fun c hc => hx c (List.mem_cons_of_mem a hc))]
    simp

lemma dropWhile_eq_self_of_head {p : Char → Bool} {s : List Char}
    (h : ∀ c, s.head? = some c → p c = false) : s.dropWhile p = s := by
  cases s with
  | nil => rfl
  | cons a l =>
    rw [List.dropWhile_cons, h a rfl]
    simp

lemma pyStrip_eq_self {s : List Char}
    (hh : ∀ c, s.head? = some c → isSpaceChar c = false)
    (hl : ∀ c, s.getLast? = some c → isSpaceChar c = false) : pyStrip s = s := by
  unfold pyStrip
  rw [dropWhile_eq_self_of_head hh]
  rw [dropWhile_eq_self_of_head
    (fun c hc => hl c (by rwa [List.head?_reverse] at hc))]
  exact List.reverse_reverse s

lemma pyStrip_space_cons (s : List Char) : pyStrip (' ' :: s) = pyStrip s := by
  unfold pyStrip
  rw [List.dropWhile_cons]
  simp [isSpaceChar]

lemma matchFraction_app {num den : List Char}
    (hnum : num ≠ []) (hnumd : ∀ c ∈ num, isDigitChar c = true)
    (hden : den ≠ []) (hdend : ∀ c ∈ den, isDigitChar c = true)
    (rest : List Char) :
    matchFraction (num ++ '/' :: (den ++ ' ' :: rest)) =
      some (num ++ '/' :: den, ' ' :: rest) := by
  unfold matchFraction
  rw [takeWhile_app_all hnumd (by decide) (den ++ ' ' :: rest)]
  rw [if_neg hnum, List.drop_left]
  show (if (den ++ ' ' :: rest).takeWhile isDigitChar = [] then none
        else some (num ++ '/' :: (den ++ ' ' :: rest).takeWhile isDigitChar,
          (den ++ ' ' :: rest).drop ((den ++ ' ' :: rest).takeWhile isDigitChar).length)) = _
  rw [takeWhile_app_all hdend (by decide) rest]
  rw [if_neg hden, List.drop_left]

lemma matchFraction_count {count : List Char}
    (hcd : ∀ c ∈ count, isDigitChar c = true) (food : List Char) :
    matchFraction (count ++ ' ' :: food) = none := by
  unfold matchFraction
  rw [takeWhile_app_all hcd (by decide) food, List.drop_left]
  by_cases hc : count = []
  · rw [if_pos hc]
  · rw [if_neg hc]
    rfl

lemma matchNumber_app {count : List Char}
    (hc : count ≠ []) (hcd : ∀ c ∈ count, isDigitChar c = true)
    (food : List Char) :
    matchNumber (count ++ ' ' :: food) = some (count, ' ' :: food) := by
  unfold matchNumber
  rw [takeWhile_app_all hcd (by decide) food, if_neg hc, List.drop_left]
  rfl

end USDA

namespace USDA

/-! ## Concrete collaborator environments -/

/-- A collaborator environment in which every request raises a network
exception. -/
def failEnv : Env :=
  { httpSearch := fun _ => .error ("network down")
    httpDetails := fun _ => .error ("network down") }

/-- A collaborator environment resolving every query to granulated sugar
whose record reports 387 kcal of energy per 100 g. -/
def sugarEnv : Env :=
  { httpSearch := fun _ => .ok ⟨200, some [⟨19335, "Sugars, granulated"⟩]⟩
    httpDetails := fun _ => .ok ⟨200, ⟨some [⟨"208", "Energy", 387, "KCAL"⟩]⟩⟩ }

/-! ## Claim theorems -/

/-- C10: for every environment, ingredient list, serving count and
nutrient key, the total equals the componentwise sum of the scaled
contributions recorded in the ingredient breakdown, so an ingredient
adds to a total exactly when it is recorded there. -/
theorem C10_totals_sum_breakdown (env : Env) (ings : List String) (s : ℤ)
    (k : NutrientKey) :
    (analyze_recipe_nutrition env ings s).total k =
      (((analyze_recipe_nutrition env ings s).ingredients).map
        (fun r => entryTotal r.nutrients k)).sum := by
  rw [analyze_total_eq, analyze_ingredients_eq]

/-- C2 (amended): the ingredient breakdown records exactly the
successfully processed ingredients, in order; failed ingredients are
skipped entirely, so the breakdown length is at most (not always equal
to) the number of input lines. -/
theorem C2_breakdown_records_only_successes (env : Env) (ings : List String)
    (s : ℤ) :
    (analyze_recipe_nutrition env ings s).ingredients =
      ings.filterMap (processIngredient env) ∧
    (analyze_recipe_nutrition env ings s).ingredients.length ≤ ings.length := by
  refine ⟨analyze_ingredients_eq env ings s, ?_⟩
  rw [analyze_ingredients_eq]
  exact List.length_filterMap_le _ _

/-- C2 counterexample: with a failing lookup collaborator, the single
ingredient "2 eggs" fails to resolve and is not recorded, so the
breakdown has 0 entries while the input has 1 — the claimed equality of
counts is false. -/
theorem C2_counterexample_failed_ingredient_dropped :
    ¬ ((analyze_recipe_nutrition failEnv [("2 eggs")] 8).ingredients.length =
        ([("2 eggs")] : List String).length) := by
  rw [analyze_ingredients_eq]
  rw [List.filterMap_cons_none (by decide), List.filterMap_nil]
  decide

/-- C3: search failures are caught and converted to an empty candidate
list (both a raised exception and a non-200 response), and when every
search comes back empty the aggregator skips every ingredient and
returns all-zero totals and an empty breakdown, without raising. -/
theorem C3_lookup_failures_are_no_data :
    (∀ (env : Env) (q e : String),
        env.httpSearch q = .error e → search_food env q = []) ∧
    (∀ (env : Env) (q : String) (r : SearchResponse),
        env.httpSearch q = .ok r → r.statusCode ≠ 200 → search_food env q = []) ∧
    ∀ (env : Env) (ings : List String) (s : ℤ),
      (∀ f, search_food env f = []) →
      (∀ k, (analyze_recipe_nutrition env ings s).total k = 0) ∧
      (analyze_recipe_nutrition env ings s).ingredients = [] := by
  refine ⟨?_, ?_, ?_⟩
  · intro env q e h
    unfold search_food
    rw [h]
  · intro env q r h h200
    unfold search_food
    rw [h]
    exact if_neg h200
  · intro env ings s hs
    have hnone : ∀ ing, processIngredient env ing = none := by
      intro ing
      unfold processIngredient
      rcases hp : parse_ingredient ing with ⟨q, u, f⟩
      simp only [hp]
      by_cases hf : f = ""
      · rw [if_pos hf]
      · rw [if_neg hf, hs f]
    have hfm : ings.filterMap (processIngredient env) = [] := by
      induction ings with
      | nil => rfl
      | cons a l ih => rw [List.filterMap_cons_none (hnone a)]; exact ih
    refine ⟨fun k => ?_, ?_⟩
    · rw [analyze_total_eq, hfm]
      simp
    · rw [analyze_ingredients_eq, hfm]

/-- C3 witness: instantiated at the always-failing environment and the
single-ingredient recipe ["2 eggs"]. -/
theorem C3_witness :
    search_food failEnv ("chicken") = [] ∧
    (analyze_recipe_nutrition failEnv [("2 eggs")] 8).total NutrientKey.calories = 0 ∧
    (analyze_recipe_nutrition failEnv [("2 eggs")] 8).ingredients = [] :=
  ⟨C3_lookup_failures_are_no_data.1 failEnv ("chicken") ("network down") rfl,
   (C3_lookup_failures_are_no_data.2.2 failEnv [("2 eggs")] 8 (fun _ => rfl)).1
     NutrientKey.calories,
   (C3_lookup_failures_are_no_data.2.2 failEnv [("2 eggs")] 8 (fun _ => rfl)).2⟩

/-- C9: the default serving count is 8 (which is ≥ 1, and the only call
site in the repository uses the default), a serving count ≥ 1 casts to a
non-zero rational divisor, and aggregating an empty ingredient sequence
yields all-zero totals and per-serving values. -/
theorem C9_servings_invariant :
    defaultServings = 8 ∧ 1 ≤ defaultServings ∧
    ∀ s : ℤ, 1 ≤ s → (s : ℚ) ≠ 0 ∧
      ∀ (env : Env) (k : NutrientKey),
        (analyze_recipe_nutrition env [] s).total k = 0 ∧
        (analyze_recipe_nutrition env [] s).per_serving k = 0 := by
  refine ⟨rfl, by decide, ?_⟩
  intro s hs
  refine ⟨Int.cast_ne_zero.mpr (by omega), ?_⟩
  intro env k
  have ht : (analyze_recipe_nutrition env [] s).total k = 0 := by
    rw [analyze_total_eq]
    simp
  exact ⟨ht, by rw [analyze_per_serving_eq, ht, zero_div]⟩

/-- C9 witness: instantiated at servings = 8 (the default) and the
always-failing environment. -/
theorem C9_witness :
    (1 : ℤ) ≤ 8 ∧ ((8 : ℤ) : ℚ) ≠ 0 ∧
    (analyze_recipe_nutrition failEnv [] 8).total NutrientKey.calories = 0 ∧
    (analyze_recipe_nutrition failEnv [] 8).per_serving NutrientKey.calories = 0 := by
  have h := C9_servings_invariant.2.2 8 (by decide)
  exact ⟨by decide, h.1, (h.2 failEnv NutrientKey.calories).1,
    (h.2 failEnv NutrientKey.calories).2⟩

end USDA

namespace USDA

lemma qtyMultiplier_parsed {q : String} {x : ℚ} (h : pyFloat? q = some x)
    (u : String) : qtyMultiplier q u = x * unitGrams u := by
  unfold qtyMultiplier
  have hq : ¬ q = "" := by
    intro he
    rw [he] at h
    exact Option.noConfusion h
  rw [if_neg hq, h]

/-- C6: a sodium record reported in milligrams with value 500 extracts to
0.5 (grams); in general mg-reported values for sodium, calcium and iron
are divided by 1000 to grams, and mcg-reported vitamin A values are
divided by 1000 to milligrams, during extraction and hence before any
quantity scaling. -/
theorem C6_unit_normalization :
    (∀ (id name u : String),
        lowerStr u ∈ (["mg", "milligram"] : List String) →
        matchesKey NutrientKey.sodium ⟨id, name, 500, u⟩ = true →
        (NutrientKey.sodium, (1 : ℚ) / 2) ∈
          extract_nutrients ⟨some [⟨id, name, 500, u⟩]⟩) ∧
    (∀ (k : NutrientKey) (n : FoodNutrient),
        lowerStr n.unitName ∈ (["mg", "milligram"] : List String) →
        k ∈ ([.sodium, .calcium, .iron] : List NutrientKey) →
        normalizeVal k n = n.value / 1000) ∧
    (∀ n : FoodNutrient,
        lowerStr n.unitName ∈ (["mcg", "microgram"] : List String) →
        normalizeVal NutrientKey.vitamin_a n = n.value / 1000) := by
  refine ⟨?_, ?_, ?_⟩
  · intro id name u hu hm
    unfold extract_nutrients
    refine List.mem_filterMap.mpr ⟨NutrientKey.sodium, by decide, ?_⟩
    rw [List.find?_cons_of_pos _ hm]
    show some (NutrientKey.sodium, normalizeVal NutrientKey.sodium ⟨id, name, 500, u⟩) = _
    have hv : normalizeVal NutrientKey.sodium ⟨id, name, 500, u⟩ = (1 : ℚ) / 2 := by
      unfold normalizeVal
      rw [if_pos ⟨hu, by decide⟩]
      norm_num
    rw [hv]
  · intro k n h1 h2
    unfold normalizeVal
    rw [if_pos ⟨h1, h2⟩]
  · intro n h
    unfold normalizeVal
    rw [if_neg (fun hc => absurd hc.2 (by decide)), if_pos ⟨h, rfl⟩]

/-- C6 witness: the concrete record (id "307", 500 mg sodium) and a
concrete mcg vitamin A record. -/
theorem C6_witness :
    lowerStr ("mg") ∈ (["mg", "milligram"] : List String) ∧
    matchesKey NutrientKey.sodium ⟨"307", "Sodium, Na", 500, "mg"⟩ = true ∧
    (NutrientKey.sodium, (1 : ℚ) / 2) ∈
      extract_nutrients ⟨some [⟨"307", "Sodium, Na", 500, "mg"⟩]⟩ ∧
    normalizeVal NutrientKey.sodium ⟨"307", "Sodium, Na", 500, "mg"⟩ = 500 / 1000 ∧
    normalizeVal NutrientKey.vitamin_a ⟨"320", "Vitamin A, RAE", 300, "mcg"⟩ =
      300 / 1000 := by
  refine ⟨by decide, by decide,
    C6_unit_normalization.1 ("307") ("Sodium, Na") ("mg") (by decide) (by decide),
    C6_unit_normalization.2.1 NutrientKey.sodium ⟨"307", "Sodium, Na", 500, "mg"⟩
      (by decide) (by decide),
    C6_unit_normalization.2.2 ⟨"320", "Vitamin A, RAE", 300, "mcg"⟩ (by decide)⟩

/-- C7: for a fixed unit and per-100g profile, scaling is linear in the
parsed quantity — a quantity parsing to 2x produces exactly double every
scaled nutrient value of a quantity parsing to x. -/
theorem C7_scale_linear (ns : List (NutrientKey × ℚ)) (u : String)
    (q1 q2 : String) (x : ℚ)
    (h1 : pyFloat? q1 = some x) (h2 : pyFloat? q2 = some (2 * x)) :
    scaleNutrients ns q2 u =
      (scaleNutrients ns q1 u).map (fun kv => (kv.1, 2 * kv.2)) := by
  have hg : qtyMultiplier q2 u = 2 * qtyMultiplier q1 u := by
    rw [qtyMultiplier_parsed h1, qtyMultiplier_parsed h2]
    ring
  unfold scaleNutrients
  rw [List.map_map]
  congr 1
  funext kv
  simp only [Function.comp_apply, Prod.mk.injEq, true_and]
  rw [hg]
  ring

/-- C7 witness: quantities "1" and "2" over a single-calorie profile and
the cup unit. -/
theorem C7_witness :
    pyFloat? ("1") = some 1 ∧ pyFloat? ("2") = some (2 * 1) ∧
    scaleNutrients [(NutrientKey.calories, 387)] ("2") ("cup") =
      (scaleNutrients [(NutrientKey.calories, 387)] ("1") ("cup")).map
        (fun kv => (kv.1, 2 * kv.2)) := by
  have hf1 : pyFloat? ("1") = some 1 := by
    simp [pyFloat?, pyFloatCore, digitsToNat, isDigitChar]
  have hf2 : pyFloat? ("2") = some (2 * 1) := by
    simp [pyFloat?, pyFloatCore, digitsToNat, isDigitChar]
  exact ⟨hf1, hf2, C7_scale_linear _ _ _ _ _ hf1 hf2⟩

/-- C8: for a numerically parseable quantity, an empty unit or one of
pint/quart/gallon falls back to 50 g per item, while cup, tablespoon,
teaspoon, ounce, pound and gram scale by 240, 15, 5, 28.35, 453.59 and 1
grams respectively. -/
theorem C8_grams_per_unit (q : String) (x : ℚ) (h : pyFloat? q = some x) :
    (∀ u ∈ (["", "pint", "quart", "gallon"] : List String),
        qtyMultiplier q u = x * 50) ∧
    qtyMultiplier q ("cup") = x * 240 ∧
    qtyMultiplier q ("tablespoon") = x * 15 ∧
    qtyMultiplier q ("teaspoon") = x * 5 ∧
    qtyMultiplier q ("ounce") = x * 28.35 ∧
    qtyMultiplier q ("pound") = x * 453.59 ∧
    qtyMultiplier q ("gram") = x * 1 := by
  refine ⟨?_, ?_, ?_, ?_, ?_, ?_, ?_⟩
  · intro u hmem
    rw [qtyMultiplier_parsed h u]
    rcases (by simpa using hmem :
        u = "" ∨ u = "pint" ∨ u = "quart" ∨ u = "gallon") with rfl | rfl | rfl | rfl
    · rw [show unitGrams ("") = 50 from rfl]
    · rw [show unitGrams ("pint") = 50 from rfl]
    · rw [show unitGrams ("quart") = 50 from rfl]
    · rw [show unitGrams ("gallon") = 50 from rfl]
  · rw [qtyMultiplier_parsed h, show unitGrams ("cup") = 240 from rfl]
  · rw [qtyMultiplier_parsed h, show unitGrams ("tablespoon") = 15 from rfl]
  · rw [qtyMultiplier_parsed h, show unitGrams ("teaspoon") = 5 from rfl]
  · rw [qtyMultiplier_parsed h, show unitGrams ("ounce") = 28.35 from rfl]
  · rw [qtyMultiplier_parsed h, show unitGrams ("pound") = 453.59 from rfl]
  · rw [qtyMultiplier_parsed h, show unitGrams ("gram") = 1 from rfl]

/-- C8 witness: quantity "2" with the empty unit, pint and cup. -/
theorem C8_witness :
    pyFloat? ("2") = some 2 ∧
    qtyMultiplier ("2") ("") = 2 * 50 ∧
    qtyMultiplier ("2") ("pint") = 2 * 50 ∧
    qtyMultiplier ("2") ("cup") = 2 * 240 := by
  have hf : pyFloat? ("2") = some 2 := by
    simp [pyFloat?, pyFloatCore, digitsToNat, isDigitChar]
  have h := C8_grams_per_unit ("2") 2 hf
  exact ⟨hf, h.1 ("") (by simp), h.1 ("pint") (by simp), h.2.1⟩

end USDA

namespace USDA

/-- C1: the ingredient "1/2 cup sugar" parses to quantity "1/2", unit
"cup", food "sugar", but `float("1/2")` raises `ValueError`, so the
quantity multiplier falls back to 1.0 with the cup multiplication
skipped, and the accumulated calories for a 387 kcal/100 g food are
387 * 1 / 100 = 3.87 — not the 387 * 120 / 100 = 464.4 the spec's
120-gram-mass scenario requires. -/
theorem C1_fraction_quantity_divergence :
    parse_ingredient ("1/2 cup sugar") = ("1/2", "cup", "sugar") ∧
    pyFloat? ("1/2") = none ∧
    qtyMultiplier ("1/2") ("cup") = 1 ∧
    (analyze_recipe_nutrition sugarEnv [("1/2 cup sugar")] 8).total
      NutrientKey.calories = 387 / 100 ∧
    (387 : ℚ) / 100 ≠ 4644 / 10 := by
  have hparse : parse_ingredient ("1/2 cup sugar") = ("1/2", "cup", "sugar") := by
    decide
  have hqm : qtyMultiplier ("1/2") ("cup") = 1 := by decide
  have hsearch : search_food sugarEnv ("sugar") = [⟨19335, "Sugars, granulated"⟩] := rfl
  have hdet : get_food_details sugarEnv (19335) =
      some ⟨some [⟨"208", "Energy", 387, "KCAL"⟩]⟩ := rfl
  have hext : extract_nutrients ⟨some [⟨"208", "Energy", 387, "KCAL"⟩]⟩ =
      [(NutrientKey.calories, (387 : ℚ))] := by decide
  have hproc : processIngredient sugarEnv ("1/2 cup sugar") =
      some { ingredient := "1/2 cup sugar", food_name := "sugar", quantity := "1/2",
             unit := "cup", fdc_id := 19335, description := "Sugars, granulated",
             nutrients := [(NutrientKey.calories,
               387 * qtyMultiplier ("1/2") ("cup") / 100)] } := by
    unfold processIngredient
    simp only [hparse, hsearch, hdet, hext, scaleNutrients, List.map]
    rw [if_neg (by decide : ¬ ("sugar" : String) = "")]
    rw [if_neg (by decide :
      ¬ ([(NutrientKey.calories, (387 : ℚ))] = ([] : List (NutrientKey × ℚ))))]
    rw [show normalizeVal NutrientKey.calories ⟨"208", "Energy", 387, "KCAL"⟩ =
      (387 : ℚ) from by decide]
  have htot : (analyze_recipe_nutrition sugarEnv [("1/2 cup sugar")] 8).total
      NutrientKey.calories = 387 / 100 := by
    rw [analyze_total_eq]
    rw [List.filterMap_cons_some hproc, List.filterMap_nil]
    simp only [List.map_cons, List.map_nil, List.sum_cons, List.sum_nil, entryTotal]
    rw [hqm]
    norm_num
  exact ⟨hparse, by decide, hqm, htot, by norm_num⟩

end USDA

namespace USDA

/-- C5: an ingredient of the form "<digits> <food word>" whose food word
contains no unit token (and which the cleanup pipeline leaves unchanged)
parses to quantity = the digits, unit = "", food name = the food word. -/
theorem C5_bare_count_parse (count food : List Char)
    (hc : count ≠ []) (hcd : ∀ c ∈ count, isDigitChar c = true)
    (hfh : ∀ c, food.head? = some c → isSpaceChar c = false)
    (hfl : ∀ c, food.getLast? = some c → isSpaceChar c = false)
    (hpre : preprocess (count ++ ' ' :: food) = count ++ ' ' :: food)
    (hunit : findUnit unitTable food = none) :
    parse_ingredient ⟨count ++ ' ' :: food⟩ = (⟨count⟩, "", ⟨food⟩) := by
  show parse_ingredient_chars (count ++ ' ' :: food) = _
  unfold parse_ingredient_chars
  rw [hpre, matchFraction_count hcd food, matchNumber_app hc hcd food]
  show (match findUnit unitTable (pyStrip (' ' :: food)) with
        | some (u, f) => ((⟨count⟩ : String), u, (⟨pyStrip f⟩ : String))
        | none => ((⟨count⟩ : String), "",
            (⟨pyStrip (pyStrip (' ' :: food))⟩ : String))) = _
  rw [pyStrip_space_cons food, pyStrip_eq_self hfh hfl, pyStrip_eq_self hfh hfl,
    hunit]

/-- C5 witness: the concrete ingredient "2 eggs". -/
theorem C5_witness :
    ((("2").data : List Char) ≠ [] ∧ (∀ c ∈ ("2").data, isDigitChar c = true) ∧
      (∀ c, (("eggs").data : List Char).head? = some c → isSpaceChar c = false) ∧
      (∀ c, (("eggs").data : List Char).getLast? = some c → isSpaceChar c = false) ∧
      preprocess (("2").data ++ ' ' :: ("eggs").data) =
        ("2").data ++ ' ' :: ("eggs").data ∧
      findUnit unitTable (("eggs").data) = none) ∧
    parse_ingredient ⟨("2").data ++ ' ' :: ("eggs").data⟩ =
      (⟨("2").data⟩, "", ⟨("eggs").data⟩) := by
  refine ⟨⟨by decide, by decide, by decide, by decide, by decide, by decide⟩, ?_⟩
  exact C5_bare_count_parse (("2").data) (("eggs").data)
    (by decide) (by decide) (by decide) (by decide) (by decide) (by decide)

end USDA

namespace USDA

lemma parse_ingredient_mk (l : List Char) :
    parse_ingredient ⟨l⟩ = parse_ingredient_chars l := rfl

/-- The fraction branch of `parse_ingredient` in closed form, for inputs
the cleanup pipeline leaves unchanged and whose unit search succeeds. -/
lemma parse_fraction_branch (num den rest : List Char)
    (hnum : num ≠ []) (hnumd : ∀ c ∈ num, isDigitChar c = true)
    (hden : den ≠ []) (hdend : ∀ c ∈ den, isDigitChar c = true)
    (hpre : preprocess (num ++ '/' :: (den ++ ' ' :: rest)) =
        num ++ '/' :: (den ++ ' ' :: rest))
    (u : String) (food : List Char)
    (hfind : findUnit unitTable (pyStrip (' ' :: rest)) = some (u, food)) :
    parse_ingredient_chars (num ++ '/' :: (den ++ ' ' :: rest)) =
      (⟨num ++ '/' :: den⟩, u, ⟨pyStrip food⟩) := by
  unfold parse_ingredient_chars
  rw [hpre, matchFraction_app hnum hnumd hden hdend rest]
  show (match findUnit unitTable (pyStrip (' ' :: rest)) with
        | some (u, f) => ((⟨num ++ '/' :: den⟩ : String), u, (⟨pyStrip f⟩ : String))
        | none => ((⟨num ++ '/' :: den⟩ : String), "",
            (⟨pyStrip (pyStrip (' ' :: rest))⟩ : String))) = _
  rw [hfind]

/-- C4: an ingredient of the form "<digits>/<digits> <cup abbreviation>
butter" (with the cleanup pipeline leaving it unchanged) parses to
quantity = the fraction text, unit = "cup", and a food name containing
"butter". -/
theorem C4_fraction_cup_parse (num den abbr : List Char)
    (hnum : num ≠ []) (hnumd : ∀ c ∈ num, isDigitChar c = true)
    (hden : den ≠ []) (hdend : ∀ c ∈ den, isDigitChar c = true)
    (habbr : abbr ∈ [("c.").data, ("c").data, ("cup").data, ("cups").data])
    (hpre : preprocess (num ++ '/' :: (den ++ ' ' :: (abbr ++ ' ' :: ("butter").data))) =
        num ++ '/' :: (den ++ ' ' :: (abbr ++ ' ' :: ("butter").data))) :
    (parse_ingredient ⟨num ++ '/' :: (den ++ ' ' :: (abbr ++ ' ' :: ("butter").data))⟩).1 =
      ⟨num ++ '/' :: den⟩ ∧
    (parse_ingredient ⟨num ++ '/' :: (den ++ ' ' :: (abbr ++ ' ' :: ("butter").data))⟩).2.1 =
      "cup" ∧
    strContains
      (parse_ingredient ⟨num ++ '/' :: (den ++ ' ' :: (abbr ++ ' ' :: ("butter").data))⟩).2.2
      ("butter") = true := by
  rcases (by simpa using habbr :
      abbr = ("c.").data ∨ abbr = ("c").data ∨ abbr = ("cup").data ∨
        abbr = ("cups").data) with rfl | rfl | rfl | rfl
  · rw [parse_ingredient_mk,
      parse_fraction_branch num den _ hnum hnumd hden hdend hpre ("cup")
        ((". butter").data) (by decide)]
    exact ⟨rfl, rfl, by show strContains ⟨pyStrip ((". butter").data)⟩ ("butter") = true; decide⟩
  · rw [parse_ingredient_mk,
      parse_fraction_branch num den _ hnum hnumd hden hdend hpre ("cup")
        ((" butter").data) (by decide)]
    exact ⟨rfl, rfl, by show strContains ⟨pyStrip ((" butter").data)⟩ ("butter") = true; decide⟩
  · rw [parse_ingredient_mk,
      parse_fraction_branch num den _ hnum hnumd hden hdend hpre ("cup")
        ((" butter").data) (by decide)]
    exact ⟨rfl, rfl, by show strContains ⟨pyStrip ((" butter").data)⟩ ("butter") = true; decide⟩
  · rw [parse_ingredient_mk,
      parse_fraction_branch num den _ hnum hnumd hden hdend hpre ("cup")
        ((" butter").data) (by decide)]
    exact ⟨rfl, rfl, by show strContains ⟨pyStrip ((" butter").data)⟩ ("butter") = true; decide⟩

/-- C4 witness: the concrete ingredient "3/4 c. butter". -/
theorem C4_witness :
    ((("3").data : List Char) ≠ [] ∧ (∀ c ∈ ("3").data, isDigitChar c = true) ∧
      (("4").data : List Char) ≠ [] ∧ (∀ c ∈ ("4").data, isDigitChar c = true) ∧
      ("c.").data ∈ [("c.").data, ("c").data, ("cup").data, ("cups").data] ∧
      preprocess (("3").data ++ '/' :: (("4").data ++ ' ' ::
          (("c.").data ++ ' ' :: ("butter").data))) =
        ("3").data ++ '/' :: (("4").data ++ ' ' ::
          (("c.").data ++ ' ' :: ("butter").data))) ∧
    (parse_ingredient ⟨("3").data ++ '/' :: (("4").data ++ ' ' ::
        (("c.").data ++ ' ' :: ("butter").data))⟩).1 = ⟨("3").data ++ '/' :: ("4").data⟩ ∧
    (parse_ingredient ⟨("3").data ++ '/' :: (("4").data ++ ' ' ::
        (("c.").data ++ ' ' :: ("butter").data))⟩).2.1 = "cup" ∧
    strContains (parse_ingredient ⟨("3").data ++ '/' :: (("4").data ++ ' ' ::
        (("c.").data ++ ' ' :: ("butter").data))⟩).2.2 ("butter") = true := by
  refine ⟨⟨by decide, by decide, by decide, by decide, by decide, by decide⟩, ?_⟩
  exact C4_fraction_cup_parse (("3").data) (("4").data) (("c.").data)
    (by decide) (by decide) (by decide) (by decide) (by decide) (by decide)

end USDA
